import Mathlib

/-!
Verification of the venue-list application (wedding-venue CRUD SPA).

The development shallowly embeds the list controller (`src/App.tsx`) and the
form controller (`VenueForm`, `VenueCard`) as pure Lean functions.  External
collaborators (the hosted store, object storage, the directions and places
APIs) are modelled as explicit oracle arguments, and the JavaScript `sort`
is modelled by `List.mergeSort`, which is stable like ECMAScript `Array.sort`.
-/

/-- Modelled from the spec: the row shape of a venue record (the generated
`database.types.ts` is not part of the sources, so the attribute types follow
§3 of the spec).  Only the attributes the verified operations touch are
carried; all fields are optional because the form holds a
`Partial<Tables<"venues">>` draft, and the identifier is present exactly for
persisted rows.  `none` stands for `null`/`undefined`. -/
structure VenueRow where
  id : Option Nat
  name : Option String
  location : Option String
  price_saturday : Option String
  drive_time_minutes : Option Int
  images : Option (List String)
  active : Option Bool
deriving DecidableEq, Repr

/-- JavaScript truthiness of a nullable string: `null`, `undefined` and the
empty string are falsy. -/
def strTruthy : Option String → Bool
  | none => false
  | some s => s ≠ ""

/-- Decimal value of a list of digit characters, as `parseInt` computes it on
a digit-only string. -/
def digitsToNat (ds : List Char) : Nat :=
  ds.foldl (fun n c => 10 * n + (c.toNat - '0'.toNat)) 0

/-- First maximal run of decimal digits of a character list, as matched by the
regular expression `/(\d+)/`; `none` when the list has no digit. -/
def firstDigitRun : List Char → Option (List Char)
  | [] => none
  | c :: cs => if c.isDigit then some (c :: cs.takeWhile Char.isDigit) else firstDigitRun cs

/-- Removal of every comma, as `p.replace(/,/g, "")` performs it. -/
def stripCommas (cs : List Char) : List Char :=
  cs.filter (fun c => c ≠ ',')

/-- Embeds `getPrice` of `src/App.tsx` (lines 60–65): `null`, the empty string
and the sentinel `"Unavailable"` map to `+infinity` (`none`); otherwise commas
are stripped, the first digit run is taken and parsed as a decimal integer,
and a string with no digit run also maps to `+infinity`. -/
def getPrice : Option String → Option Nat
  | none => none
  | some p =>
    if p = "" ∨ p = "Unavailable" then none
    else
      match firstDigitRun (stripCommas p.data) with
      | some ds => some (digitsToNat ds)
      | none => none

/-- Boolean order underlying the `price_saturday` comparator
`getPrice a - getPrice b` of `src/App.tsx` line 66: `a` may stay before `b`
exactly when the comparator value is `≤ 0`, with `Infinity - Infinity` (`NaN`)
treated as a tie, as ECMAScript `Array.sort` does. -/
def priceSaturdayLE (a b : VenueRow) : Bool :=
  match getPrice a.price_saturday, getPrice b.price_saturday with
  | some x, some y => x ≤ y
  | some _, none => true
  | none, some _ => false
  | none, none => true

/-- Boolean order underlying the `distance` comparator of `src/App.tsx`
lines 55–57: `drive_time_minutes ?? Infinity`, ascending, `NaN` ties kept. -/
def distanceLE (a b : VenueRow) : Bool :=
  match a.drive_time_minutes, b.drive_time_minutes with
  | some x, some y => x ≤ y
  | some _, none => true
  | none, some _ => false
  | none, none => true

/-- The `sortedVenues` derivation of `src/App.tsx` for the `distance` sort
key: a stable sort of the fetched rows by `distanceLE`. -/
def sortByDistance (venues : List VenueRow) : List VenueRow :=
  venues.mergeSort distanceLE

/-- The `sortedVenues` derivation of `src/App.tsx` for the `price_saturday`
sort key: a stable sort of the fetched rows by `priceSaturdayLE`. -/
def sortByPriceSaturday (venues : List VenueRow) : List VenueRow :=
  venues.mergeSort priceSaturdayLE

/-- Embeds `formatDriveTime` of the venue card (part_000 lines 37–43):
falsy minutes (null or 0) display nothing; under 60 minutes renders
`"<N> mins"`; otherwise `"<H> hr <M> mins"` with `H = Math.floor(minutes/60)`
and `M = minutes % 60`. -/
def formatDriveTime : Option Int → Option String
  | none => none
  | some m =>
    if m = 0 then none
    else if m < 60 then some (toString m ++ " mins")
    else some (toString (m / 60) ++ " hr " ++ toString (m % 60) ++ " mins")

/-- The comparison value the spec ascribes to the `distance` sort key:
`drive_time_minutes` with `null` treated as `+infinity`. -/
def driveKey (v : VenueRow) : WithTop Int :=
  match v.drive_time_minutes with
  | none => ⊤
  | some x => (x : WithTop Int)

/-- The comparison value the spec ascribes to the `price_saturday` sort key:
the extracted price with the unparsable cases treated as `+infinity`. -/
def priceKey (v : VenueRow) : WithTop Nat :=
  match getPrice v.price_saturday with
  | none => ⊤
  | some n => (n : WithTop Nat)

/-- Venue row carrying the example price `"£1,200"` of the spec. -/
def examplePrice1200 : VenueRow :=
  { id := some 1, name := some "A", location := none, price_saturday := some "£1,200",
    drive_time_minutes := none, images := none, active := none }

/-- Venue row carrying the example sentinel price `"Unavailable"` of the spec. -/
def examplePriceUnavailable : VenueRow :=
  { id := some 2, name := some "B", location := none, price_saturday := some "Unavailable",
    drive_time_minutes := none, images := none, active := none }

/-- Venue row carrying the example price `"800"` of the spec. -/
def examplePrice800 : VenueRow :=
  { id := some 3, name := some "C", location := none, price_saturday := some "800",
    drive_time_minutes := none, images := none, active := none }

/-- Venue row of the spec's `distance` example with drive time 30. -/
def exampleDriveA : VenueRow :=
  { id := some 1, name := some "A", location := none, price_saturday := none,
    drive_time_minutes := some 30, images := none, active := none }

/-- Venue row of the spec's `distance` example with null drive time. -/
def exampleDriveB : VenueRow :=
  { id := some 2, name := some "B", location := none, price_saturday := none,
    drive_time_minutes := none, images := none, active := none }

/-- Venue row of the spec's `distance` example with drive time 10. -/
def exampleDriveC : VenueRow :=
  { id := some 3, name := some "C", location := none, price_saturday := none,
    drive_time_minutes := some 10, images := none, active := none }

/-- Venue row used to exhibit a drive-time tie. -/
def exampleTie1 : VenueRow :=
  { id := some 4, name := some "T1", location := none, price_saturday := none,
    drive_time_minutes := some 20, images := none, active := none }

/-- Second venue row of the drive-time tie. -/
def exampleTie2 : VenueRow :=
  { id := some 5, name := some "T2", location := none, price_saturday := none,
    drive_time_minutes := some 20, images := none, active := none }

/-- In-memory state of the venue list controller: the `venues` and `loading`
`useState` cells of `src/App.tsx`. -/
structure ListState where
  venues : List VenueRow
  loading : Bool
deriving DecidableEq, Repr

/-- Reply of the store read `supabase.from("venues").select("*")`: either an
error, or data that may itself be null. -/
inductive FetchReply
  | failure
  | success (rows : Option (List VenueRow))
deriving DecidableEq, Repr

/-- Observable outcome of one `fetchVenues` run: the final controller state
and whether an error was logged. -/
structure FetchOutcome where
  state : ListState
  loggedError : Bool
deriving DecidableEq, Repr

/-- Embeds `fetchVenues` of `src/App.tsx` (lines 32–44): on success the list
is replaced by `data || []`; on error the error is logged and `setVenues` is
never called, so the list keeps its previous value; `loading` is cleared in
the `finally` block either way. -/
def fetchVenues (s : ListState) (r : FetchReply) : FetchOutcome :=
  match r with
  | .success rows => { state := { venues := rows.getD [], loading := false }, loggedError := false }
  | .failure => { state := { venues := s.venues, loading := false }, loggedError := true }

/-- Venue row already held by the list controller when a refetch fails. -/
def exampleStaleRow : VenueRow :=
  { id := some 9, name := some "Stale", location := none, price_saturday := none,
    drive_time_minutes := none, images := none, active := none }

/-- One write issued against the venue store by the save path. -/
inductive StoreWrite
  | insertRow (row : VenueRow)
  | updateRow (id : Nat) (row : VenueRow)
deriving DecidableEq, Repr

/-- Row carried by a store write. -/
def writtenRow : StoreWrite → VenueRow
  | .insertRow r => r
  | .updateRow _ r => r

/-- Observable outcome of one `handleSubmit` run: how many times the
directions API was invoked and the store writes issued. -/
structure SubmitOutcome where
  directionsCalls : Nat
  writes : List StoreWrite
deriving DecidableEq, Repr

/-- Embeds `handleSubmit` of the venue form (part_001 lines 270–312).
`initialData` is the pre-edit snapshot prop (absent for a create), and the
oracle `driveApi` is the value `calculateDriveTime` would resolve to when
invoked (`none` for a null/failed recomputation).  `locationChanged` is
`formData.location !== initialData?.location`, which always holds when
`initialData` is absent because `formData.location` is a string or null,
never undefined.  The identifier test `if (formData.id)` is presence of the
identifier, per the spec-modelled row shape (§3: the identifier is present
exactly once persisted). -/
def handleSubmit (formData : VenueRow) (initialData : Option VenueRow)
    (driveApi : Option Int) : SubmitOutcome :=
  let locationChanged : Bool :=
    match initialData with
    | none => true
    | some init => formData.location ≠ init.location
  let isNew : Bool := formData.id.isNone
  let invoke : Bool := strTruthy formData.location && (locationChanged || isNew)
  let driveTime : Option Int :=
    if invoke then
      match driveApi with
      | some t => some t
      | none => formData.drive_time_minutes
    else formData.drive_time_minutes
  let dataToSave : VenueRow :=
    { formData with
      active := some (formData.active.getD true),
      drive_time_minutes := driveTime }
  { directionsCalls := if invoke then 1 else 0,
    writes :=
      match formData.id with
      | some i => [.updateRow i dataToSave]
      | none => [.insertRow dataToSave] }

/-- Embeds the `useState` initialization of `formData` (part_001 lines
23–38): scalar defaults, then the spread of `initialData` (a full row when
editing), then `active` defaulted to true and `images` to `[]`. -/
def initFormData : Option VenueRow → VenueRow
  | none =>
    { id := none, name := some "", location := some "", price_saturday := some "",
      drive_time_minutes := none, images := some [], active := some true }
  | some init =>
    { init with
      active := some (init.active.getD true),
      images := some (init.images.getD []) }

/-- The `MAX_IMAGES` constant of the venue form. -/
def MAX_IMAGES : Nat := 10

/-- Observable outcome of one `uploadImages` run: the final `images` field of
the draft, the files persisted in the images bucket (never rolled back), the
files for which an upload was attempted, and whether a user-visible alert was
raised. -/
structure UploadOutcome where
  images : Option (List String)
  stored : List String
  attempted : List String
  alerted : Bool
deriving DecidableEq, Repr

/-- The sequential upload loop of `uploadImages` (part_001 lines 163–179)
over the oracle `store`, which maps a file to its public URL or to `none`
when the storage upload fails.  Returns the collected URLs (`none` when some
upload failed, aborting the loop), the files persisted in storage, and the
files attempted. -/
def runUploads (store : String → Option String) : List String → Option (List String) × List String × List String
  | [] => (some [], [], [])
  | f :: fs =>
    match store f with
    | none => (none, [], [f])
    | some url =>
      match runUploads store fs with
      | (none, stored, att) => (none, f :: stored, f :: att)
      | (some urls, stored, att) => (some (url :: urls), f :: stored, f :: att)

/-- Embeds `uploadImages` of the venue form (part_001 lines 149–191): an
empty batch returns immediately; a draft already at `MAX_IMAGES` rejects the
batch with an alert and no upload; otherwise only the first
`MAX_IMAGES - current` files are uploaded and, when every upload succeeds,
their public URLs are appended to the draft; a failure aborts the loop,
alerts, and leaves the draft's `images` untouched. -/
def uploadImages (store : String → Option String) (formImages : Option (List String))
    (files : List String) : UploadOutcome :=
  if files.length = 0 then
    { images := formImages, stored := [], attempted := [], alerted := false }
  else
    let currentImages := formImages.getD []
    if MAX_IMAGES ≤ currentImages.length then
      { images := formImages, stored := [], attempted := [], alerted := true }
    else
      let remainingSlots := MAX_IMAGES - currentImages.length
      let filesToUpload := files.take remainingSlots
      match runUploads store filesToUpload with
      | (some urls, stored, att) =>
        { images := some (currentImages ++ urls), stored := stored, attempted := att,
          alerted := false }
      | (none, stored, att) =>
        { images := formImages, stored := stored, attempted := att, alerted := true }

/-- Nine image URLs already on a draft, for the spec's cap example. -/
def nineImages : List String :=
  ["i1", "i2", "i3", "i4", "i5", "i6", "i7", "i8", "i9"]

/-- One route of a directions reply; `duration` may be missing. -/
structure RouteData where
  duration : Option String
deriving DecidableEq, Repr

/-- Body and status of a directions reply: `ok` is the 2xx flag of the
`fetch` response, `routes` may be missing or empty. -/
structure DirectionsResponse where
  ok : Bool
  routes : Option (List RouteData)
deriving DecidableEq, Repr

/-- Environment of one `calculateDriveTime` call: the configured API key
(`none` or empty when missing) and the network reply (`none` when the fetch
threw). -/
structure DirectionsEnv where
  apiKey : Option String
  reply : Option DirectionsResponse
deriving DecidableEq, Repr

/-- Value `calculateDriveTime` resolves to: `null`, a number of minutes, or
`NaN` (when `parseInt` fails on a malformed duration). -/
inductive DriveTimeResult
  | nullResult
  | nanResult
  | minutes (n : Nat)
deriving DecidableEq, Repr

/-- Leading digit run parsed as a decimal integer, as `parseInt(s, 10)` does;
`none` models `NaN`. -/
def jsParseIntLeading (cs : List Char) : Option Nat :=
  match cs.takeWhile Char.isDigit with
  | [] => none
  | ds => some (digitsToNat ds)

/-- Removal of the first occurrence of `'s'`, as `duration.replace("s", "")`
performs it. -/
def removeFirstS : List Char → List Char
  | [] => []
  | c :: cs => if c = 's' then cs else c :: removeFirstS cs

/-- Embeds `calculateDriveTime` of the venue form (part_001 lines 56–101): a
missing or empty API key, a thrown fetch, a non-2xx status, missing or empty
`routes`, or a missing/empty `duration` all resolve to null; otherwise the
duration string has its first `"s"` removed, is parsed with `parseInt`, and
the seconds are divided by 60 and rounded to the nearest minute
(`Math.round`, half away from zero, here `(secs + 30) / 60` on naturals). -/
def calculateDriveTime (env : DirectionsEnv) : DriveTimeResult :=
  match env.apiKey with
  | none => .nullResult
  | some key =>
    if key = "" then .nullResult
    else
      match env.reply with
      | none => .nullResult
      | some resp =>
        if resp.ok = false then .nullResult
        else
          match resp.routes with
          | some (r :: _) =>
            (match r.duration with
             | some d =>
               if d = "" then .nullResult
               else
                 match jsParseIntLeading (removeFirstS d.data) with
                 | some secs => .minutes ((secs + 30) / 60)
                 | none => .nanResult
             | none => .nullResult)
          | _ => .nullResult

/-- One candidate of a places-search reply. -/
structure PlaceData where
  formattedAddress : Option String
deriving DecidableEq, Repr

/-- Body and status of a places-search reply. -/
structure PlacesResponse where
  ok : Bool
  places : Option (List PlaceData)
deriving DecidableEq, Repr

/-- Environment of one `handleAutoFillLocation` call. -/
structure PlacesEnv where
  apiKey : Option String
  reply : Option PlacesResponse
deriving DecidableEq, Repr

/-- Observable outcome of one `handleAutoFillLocation` run: the resulting
draft, the number of places-API requests issued, and the alerts raised. -/
structure AutoFillOutcome where
  formData : VenueRow
  requests : Nat
  alerts : List String
deriving DecidableEq, Repr

/-- Embeds `handleAutoFillLocation` of the venue form (part_001 lines
103–147): a falsy draft name returns at once; a missing API key alerts
without a request; a thrown fetch or non-2xx reply alerts failure after the
request; a reply with at least one place overwrites `location` with its
formatted address; an empty reply alerts that no location was found. -/
def handleAutoFillLocation (formData : VenueRow) (env : PlacesEnv) : AutoFillOutcome :=
  if strTruthy formData.name = false then
    { formData := formData, requests := 0, alerts := [] }
  else
    match env.apiKey with
    | none =>
      { formData := formData, requests := 0, alerts := ["Google Maps API Key is missing"] }
    | some key =>
      if key = "" then
        { formData := formData, requests := 0, alerts := ["Google Maps API Key is missing"] }
      else
        match env.reply with
        | none =>
          { formData := formData, requests := 1, alerts := ["Failed to find location"] }
        | some resp =>
          if resp.ok = false then
            { formData := formData, requests := 1, alerts := ["Failed to find location"] }
          else
            match resp.places with
            | some (p :: _) =>
              { formData := { formData with location := p.formattedAddress },
                requests := 1, alerts := [] }
            | _ =>
              { formData := formData, requests := 1,
                alerts := ["No location found for this venue name"] }

theorem distanceLE_iff (a b : VenueRow) : distanceLE a b = true ↔ driveKey a ≤ driveKey b := by
  cases ha : a.drive_time_minutes <;> cases hb : b.drive_time_minutes <;>
    simp [distanceLE, driveKey, ha, hb]

theorem priceSaturdayLE_iff (a b : VenueRow) :
    priceSaturdayLE a b = true ↔ priceKey a ≤ priceKey b := by
  cases ha : getPrice a.price_saturday <;> cases hb : getPrice b.price_saturday <;>
    simp [priceSaturdayLE, priceKey, ha, hb]

theorem distanceLE_trans (a b c : VenueRow) (hab : distanceLE a b = true)
    (hbc : distanceLE b c = true) : distanceLE a c = true :=
  (distanceLE_iff a c).mpr (le_trans ((distanceLE_iff a b).mp hab) ((distanceLE_iff b c).mp hbc))

theorem distanceLE_total (a b : VenueRow) : (distanceLE a b || distanceLE b a) = true := by
  rcases le_total (driveKey a) (driveKey b) with h | h
  · simp [(distanceLE_iff a b).mpr h]
  · simp [(distanceLE_iff b a).mpr h]

theorem priceSaturdayLE_trans (a b c : VenueRow) (hab : priceSaturdayLE a b = true)
    (hbc : priceSaturdayLE b c = true) : priceSaturdayLE a c = true :=
  (priceSaturdayLE_iff a c).mpr
    (le_trans ((priceSaturdayLE_iff a b).mp hab) ((priceSaturdayLE_iff b c).mp hbc))

theorem priceSaturdayLE_total (a b : VenueRow) :
    (priceSaturdayLE a b || priceSaturdayLE b a) = true := by
  rcases le_total (priceKey a) (priceKey b) with h | h
  · simp [(priceSaturdayLE_iff a b).mpr h]
  · simp [(priceSaturdayLE_iff b a).mpr h]

theorem firstDigitRun_eq_none_iff (cs : List Char) :
    firstDigitRun cs = none ↔ ∀ c ∈ cs, ¬ c.isDigit := by
  induction cs with
  | nil => simp [firstDigitRun]
  | cons c cs ih =>
    by_cases hc : c.isDigit <;> simp [firstDigitRun, hc, ih]

theorem getPrice_eq_none_iff (p : Option String) :
    getPrice p = none ↔
      p = none ∨ p = some "" ∨ p = some "Unavailable" ∨
        ∃ s, p = some s ∧ ∀ c ∈ s.data, ¬ c.isDigit := by
  cases p with
  | none => simp [getPrice]
  | some s =>
    by_cases h1 : s = ""
    · subst h1
      constructor
      · intro _
        exact Or.inr (Or.inl rfl)
      · intro _
        decide
    · by_cases h2 : s = "Unavailable"
      · subst h2
        constructor
        · intro _
          exact Or.inr (Or.inr (Or.inl rfl))
        · intro _
          decide
      · cases hfd : firstDigitRun (stripCommas s.data) with
        | some ds =>
          have hg : getPrice (some s) = some (digitsToNat ds) := by
            simp [getPrice, h1, h2, hfd]
          rw [hg]
          constructor
          · intro h
            exact absurd h (by simp)
          · rintro (h | h | h | ⟨t, ht, hnd⟩)
            · exact absurd h (by simp)
            · exact absurd (Option.some.inj h) h1
            · exact absurd (Option.some.inj h) h2
            · cases Option.some.inj ht
              have hnone : firstDigitRun (stripCommas s.data) = none :=
                (firstDigitRun_eq_none_iff _).mpr
                  (fun c hc => hnd c (List.mem_of_mem_filter hc))
              simp [hnone] at hfd
        | none =>
          have hg : getPrice (some s) = none := by
            simp [getPrice, h1, h2, hfd]
          rw [hg]
          constructor
          · intro _
            refine Or.inr (Or.inr (Or.inr ⟨s, rfl, ?_⟩))
            intro c hc hdig
            have hc' : c ∈ stripCommas s.data := by
              refine List.mem_filter.mpr ⟨hc, ?_⟩
              simp only [decide_eq_true_eq]
              intro hcomma
              subst hcomma
              exact absurd hdig (by decide)
            exact (firstDigitRun_eq_none_iff _).mp hfd c hc' hdig
          · intro _
            rfl

unseal List.merge List.mergeSort in
/-- Claim C1: sorting by the `price_saturday` key compares venues by the
integer parsed out of the first digit run of the comma-stripped price, venues
whose price is null, empty, `"Unavailable"` or digit-free are treated as
`+infinity` and end up after every parsable-price venue, the spec's example
`["£1,200", "Unavailable", "800"]` sorts as `800, 1200, Unavailable`, and the
extraction is total (it never throws): `getPrice` maps to `+infinity`
(`none`) exactly on the four unparsable cases, the sorted output is ordered
by `priceKey` (parsed price with `+infinity` for the unparsable cases) and is
a permutation of the input, and `"£1,200"` indeed parses to `1200`. -/
theorem claim_C1_price_saturday_sort (venues : List VenueRow) :
    (∀ p, getPrice p = none ↔
      p = none ∨ p = some "" ∨ p = some "Unavailable" ∨
        ∃ s, p = some s ∧ ∀ c ∈ s.data, ¬ c.isDigit) ∧
    ((sortByPriceSaturday venues).map priceKey).Sorted (· ≤ ·) ∧
    (sortByPriceSaturday venues).Perm venues ∧
    getPrice (some "£1,200") = some 1200 ∧
    sortByPriceSaturday [examplePrice1200, examplePriceUnavailable, examplePrice800]
      = [examplePrice800, examplePrice1200, examplePriceUnavailable] := by
  refine ⟨getPrice_eq_none_iff, ?_, List.mergeSort_perm venues priceSaturdayLE,
    by decide, by decide⟩
  have h := List.sorted_mergeSort priceSaturdayLE_trans priceSaturdayLE_total venues
  rw [List.Sorted, List.pairwise_map]
  exact h.imp (fun hab => (priceSaturdayLE_iff _ _).mp hab)

/-- Witness for claim C1 at concrete inputs. -/
theorem claim_C1_price_saturday_sort_witness :
    sortByPriceSaturday [examplePrice1200, examplePriceUnavailable, examplePrice800]
      = [examplePrice800, examplePrice1200, examplePriceUnavailable] ∧
    getPrice (some "Unavailable") = none :=
  ⟨(claim_C1_price_saturday_sort []).2.2.2.2,
   ((claim_C1_price_saturday_sort []).1 (some "Unavailable")).mpr
     (Or.inr (Or.inr (Or.inl rfl)))⟩

unseal List.merge List.mergeSort in
/-- Claim C8: sorting by the `distance` key orders venues ascending by
`drive_time_minutes` with null treated as `+infinity` (so null sorts after
every non-null value), the output is a permutation of the fetch order, ties
keep the original fetch order (stability), and the spec's example
`[A:30, B:null, C:10]` sorts as `C, A, B`. -/
theorem claim_C8_distance_sort (venues : List VenueRow) :
    ((sortByDistance venues).map driveKey).Sorted (· ≤ ·) ∧
    (sortByDistance venues).Perm venues ∧
    (∀ a b, [a, b].Sublist venues → driveKey a = driveKey b →
      [a, b].Sublist (sortByDistance venues)) ∧
    sortByDistance [exampleDriveA, exampleDriveB, exampleDriveC]
      = [exampleDriveC, exampleDriveA, exampleDriveB] := by
  refine ⟨?_, List.mergeSort_perm venues distanceLE, ?_, by decide⟩
  · have h := List.sorted_mergeSort distanceLE_trans distanceLE_total venues
    rw [List.Sorted, List.pairwise_map]
    exact h.imp (fun hab => (distanceLE_iff _ _).mp hab)
  · intro a b hs hk
    exact List.pair_sublist_mergeSort distanceLE_trans distanceLE_total
      ((distanceLE_iff a b).mpr (le_of_eq hk)) hs

/-- Witness for claim C8 at concrete inputs, including a tie kept in fetch
order. -/
theorem claim_C8_distance_sort_witness :
    sortByDistance [exampleDriveA, exampleDriveB, exampleDriveC]
      = [exampleDriveC, exampleDriveA, exampleDriveB] ∧
    [exampleTie1, exampleTie2].Sublist
      (sortByDistance [exampleDriveA, exampleTie1, exampleTie2]) :=
  ⟨(claim_C8_distance_sort []).2.2.2,
   (claim_C8_distance_sort [exampleDriveA, exampleTie1, exampleTie2]).2.2.1
     exampleTie1 exampleTie2 (by decide) (by decide)⟩

/-- Claim C2: every submitted draft issues exactly one store write — a draft
without an identifier produces a single insert, and a draft with an
identifier produces a single update keyed by that identifier, never both. -/
theorem claim_C2_insert_vs_update (formData : VenueRow) (initialData : Option VenueRow)
    (driveApi : Option Int) :
    (handleSubmit formData initialData driveApi).writes.length = 1 ∧
    (formData.id = none →
      ∃ row, (handleSubmit formData initialData driveApi).writes
        = [StoreWrite.insertRow row]) ∧
    (∀ i, formData.id = some i →
      ∃ row, (handleSubmit formData initialData driveApi).writes
        = [StoreWrite.updateRow i row]) := by
  cases h : formData.id <;> simp [handleSubmit, h]

/-- Witness for claim C2: a fresh draft inserts, a persisted draft updates
under its identifier. -/
theorem claim_C2_insert_vs_update_witness :
    (∃ row, (handleSubmit (initFormData none) none none).writes
      = [StoreWrite.insertRow row]) ∧
    (∃ row, (handleSubmit (initFormData (some exampleStaleRow)) (some exampleStaleRow)
        none).writes = [StoreWrite.updateRow 9 row]) :=
  ⟨(claim_C2_insert_vs_update (initFormData none) none none).2.1 rfl,
   (claim_C2_insert_vs_update (initFormData (some exampleStaleRow)) (some exampleStaleRow)
     none).2.2 9 rfl⟩

/-- Claim C6 counterexample: a failed fetch started from a controller that
already held a venue does not leave the list empty, so the claim's "for
every state ... the list is left empty" is false. -/
theorem claim_C6_counterexample :
    ¬ ((fetchVenues { venues := [exampleStaleRow], loading := false }
        FetchReply.failure).state.venues = []) := by
  decide

/-- Claim C6 (amended): whenever the venue fetch fails, the error is logged
and the loading flag is cleared, but the in-memory venue list is left
unchanged rather than emptied — it ends up empty exactly when it was empty
when the fetch started (as on the initial load); a failed refetch after a
save keeps the previously fetched rows. -/
theorem claim_C6_fetch_failure (s : ListState) :
    (fetchVenues s FetchReply.failure).loggedError = true ∧
    (fetchVenues s FetchReply.failure).state.loading = false ∧
    (fetchVenues s FetchReply.failure).state.venues = s.venues ∧
    (s.venues = [] → (fetchVenues s FetchReply.failure).state.venues = []) :=
  ⟨rfl, rfl, rfl, fun h => by simp [fetchVenues, h]⟩

/-- Witness for claim C6 (amended) on the initial, still-empty state. -/
theorem claim_C6_fetch_failure_witness :
    (fetchVenues { venues := [], loading := true } FetchReply.failure).state.venues = [] :=
  (claim_C6_fetch_failure { venues := [], loading := true }).2.2.2 rfl

/-- Claim C7: `formatDriveTime` maps null and 0 to no display value, every
positive value under 60 to `"<N> mins"`, and every value of 60 or more to
`"<H> hr <M> mins"` with `H = minutes / 60` (floor) and `M = minutes % 60`,
rendering `M = 0` as `"0 mins"`; in particular 45 ↦ `"45 mins"`,
90 ↦ `"1 hr 30 mins"`, 120 ↦ `"2 hr 0 mins"`. -/
theorem claim_C7_formatDriveTime :
    formatDriveTime none = none ∧
    formatDriveTime (some 0) = none ∧
    (∀ n : Int, 0 < n → n < 60 → formatDriveTime (some n) = some (toString n ++ " mins")) ∧
    (∀ n : Int, 60 ≤ n →
      formatDriveTime (some n)
        = some (toString (n / 60) ++ " hr " ++ toString (n % 60) ++ " mins")) ∧
    formatDriveTime (some 45) = some "45 mins" ∧
    formatDriveTime (some 90) = some "1 hr 30 mins" ∧
    formatDriveTime (some 120) = some "2 hr 0 mins" := by
  refine ⟨rfl, by decide, ?_, ?_, by decide, by decide, by decide⟩
  · intro n h1 h2
    have h0 : ¬ n = 0 := by omega
    simp [formatDriveTime, h0, h2]
  · intro n h
    have h0 : ¬ n = 0 := by omega
    have h60 : ¬ n < 60 := by omega
    simp [formatDriveTime, h0, h60]

/-- Witness for claim C7 at 7 and 61 minutes. -/
theorem claim_C7_formatDriveTime_witness :
    formatDriveTime (some 7) = some "7 mins" ∧
    formatDriveTime (some 61) = some "1 hr 1 mins" :=
  ⟨(claim_C7_formatDriveTime.2.2.1 7 (by decide) (by decide)).trans (by decide),
   (claim_C7_formatDriveTime.2.2.2.1 61 (by decide)).trans (by decide)⟩

/-- Claim C10: when the draft's name is absent or empty, the location
auto-fill returns before doing anything: no places request, no draft change,
no alert. -/
theorem claim_C10_autofill_noop (formData : VenueRow) (env : PlacesEnv)
    (h : formData.name = none ∨ formData.name = some "") :
    handleAutoFillLocation formData env =
      { formData := formData, requests := 0, alerts := [] } := by
  rcases h with h | h <;> simp [handleAutoFillLocation, strTruthy, h]

/-- Witness for claim C10 on an empty-named draft with an API environment
that would otherwise be reachable. -/
theorem claim_C10_autofill_noop_witness :
    handleAutoFillLocation { initFormData none with name := some "" }
        { apiKey := some "k", reply := none }
      = { formData := { initFormData none with name := some "" },
          requests := 0, alerts := [] } :=
  claim_C10_autofill_noop { initFormData none with name := some "" }
    { apiKey := some "k", reply := none } (Or.inr rfl)

theorem uploadImages_nil (store : String → Option String) (formImages : Option (List String)) :
    uploadImages store formImages []
      = { images := formImages, stored := [], attempted := [], alerted := false } := rfl

theorem uploadImages_full (store : String → Option String) (formImages : Option (List String))
    (files : List String) (hne : files ≠ [])
    (h : MAX_IMAGES ≤ (formImages.getD []).length) :
    uploadImages store formImages files
      = { images := formImages, stored := [], attempted := [], alerted := true } := by
  unfold uploadImages
  rw [if_neg (by simpa using hne), if_pos h]

theorem uploadImages_run (store : String → Option String) (formImages : Option (List String))
    (files : List String) (hne : files ≠ [])
    (h : (formImages.getD []).length < MAX_IMAGES) :
    uploadImages store formImages files
      = match runUploads store (files.take (MAX_IMAGES - (formImages.getD []).length)) with
        | (some urls, stored, att) =>
          { images := some (formImages.getD [] ++ urls), stored := stored, attempted := att,
            alerted := false }
        | (none, stored, att) =>
          { images := formImages, stored := stored, attempted := att, alerted := true } := by
  unfold uploadImages
  rw [if_neg (by simpa using hne), if_neg (by omega)]

theorem runUploads_success (store : String → Option String) (url : String → String) :
    ∀ files : List String, (∀ f ∈ files, store f = some (url f)) →
      runUploads store files = (some (files.map url), files, files)
  | [], _ => rfl
  | f :: fs, h => by
    have hf := h f (List.mem_cons_self f fs)
    have ih := runUploads_success store url fs (fun g hg => h g (List.mem_cons_of_mem f hg))
    simp [runUploads, hf, ih]

theorem runUploads_some_length (store : String → Option String) :
    ∀ (files urls stored att : List String),
      runUploads store files = (some urls, stored, att) → urls.length = files.length
  | [], urls, stored, att, h => by
    simp only [runUploads, Prod.mk.injEq, Option.some.injEq] at h
    simp [← h.1]
  | f :: fs, urls, stored, att, h => by
    cases hsf : store f with
    | none => simp [runUploads, hsf] at h
    | some u =>
      rcases hr : runUploads store fs with ⟨res, st2, att2⟩
      cases res with
      | none => simp [runUploads, hsf, hr] at h
      | some us =>
        have hlen := runUploads_some_length store fs us st2 att2 hr
        simp only [runUploads, hsf, hr, Prod.mk.injEq, Option.some.injEq] at h
        simp [← h.1, hlen]

theorem runUploads_failure (store : String → Option String) (url : String → String)
    (bad : String) (hbad : store bad = none) :
    ∀ (good rest : List String), (∀ f ∈ good, store f = some (url f)) →
      runUploads store (good ++ bad :: rest) = (none, good, good ++ [bad])
  | [], rest, _ => by simp [runUploads, hbad]
  | g :: gs, rest, h => by
    have hg := h g (List.mem_cons_self g gs)
    have ih := runUploads_failure store url bad hbad gs rest
      (fun f hf => h f (List.mem_cons_of_mem g hf))
    simp [runUploads, hg, ih]

/-- Claim C3: starting from a draft holding at most `MAX_IMAGES` images, the
upload operation keeps the count at most `MAX_IMAGES` for every oracle; a
draft already at the cap rejects the batch with an alert, attempts no upload
and adds no image; and otherwise (all uploads succeeding) exactly the first
`MAX_IMAGES - current` files of the batch are attempted and their URLs
appended in order. -/
theorem claim_C3_image_cap (store : String → Option String) (url : String → String)
    (formImages : Option (List String)) (files : List String)
    (hcap : (formImages.getD []).length ≤ MAX_IMAGES) :
    ((uploadImages store formImages files).images.getD []).length ≤ MAX_IMAGES ∧
    ((formImages.getD []).length = MAX_IMAGES →
      (uploadImages store formImages files).images = formImages ∧
      (uploadImages store formImages files).attempted = [] ∧
      (files ≠ [] → (uploadImages store formImages files).alerted = true)) ∧
    ((∀ f ∈ files.take (MAX_IMAGES - (formImages.getD []).length), store f = some (url f)) →
      (uploadImages store formImages files).images.getD []
        = formImages.getD [] ++ (files.take (MAX_IMAGES - (formImages.getD []).length)).map url ∧
      (uploadImages store formImages files).attempted
        = files.take (MAX_IMAGES - (formImages.getD []).length)) := by
  by_cases hnil : files = []
  · subst hnil
    rw [uploadImages_nil]
    exact ⟨hcap, fun _ => ⟨rfl, rfl, fun hne => absurd rfl hne⟩,
      fun _ => ⟨by simp, by simp⟩⟩
  · by_cases hfull : MAX_IMAGES ≤ (formImages.getD []).length
    · have htake : MAX_IMAGES - (formImages.getD []).length = 0 := by omega
      rw [uploadImages_full store formImages files hnil hfull]
      refine ⟨hcap, fun _ => ⟨rfl, rfl, fun _ => rfl⟩, fun _ => ?_⟩
      rw [htake]
      simp
    · push_neg at hfull
      rw [uploadImages_run store formImages files hnil hfull]
      rcases hrun : runUploads store (files.take (MAX_IMAGES - (formImages.getD []).length))
        with ⟨res, stored, att⟩
      cases res with
      | none =>
        refine ⟨by simpa using hcap, fun h10 => absurd h10 (by omega), fun hall => ?_⟩
        have hs := runUploads_success store url _ hall
        rw [hrun] at hs
        exact absurd hs (by simp)
      | some urls =>
        have hlen := runUploads_some_length store _ urls stored att hrun
        refine ⟨?_, fun h10 => absurd h10 (by omega), fun hall => ?_⟩
        · have hle : urls.length ≤ MAX_IMAGES - (formImages.getD []).length := by
            rw [hlen, List.length_take]
            omega
          simp only [Option.getD_some, List.length_append]
          omega
        · have hs := runUploads_success store url _ hall
          rw [hrun] at hs
          simp only [Prod.mk.injEq, Option.some.injEq] at hs
          exact ⟨by simp [hs.1], hs.2.2⟩

/-- Witness for claim C3: from 9 images a batch of 3 yields exactly 10
(only the first file accepted), and an 11th file on a full draft is rejected
with nothing attempted. -/
theorem claim_C3_image_cap_witness :
    (uploadImages (fun f => some (f ++ ".url")) (some nineImages)
        ["f1", "f2", "f3"]).images.getD [] = nineImages ++ ["f1.url"] ∧
    ((uploadImages (fun f => some (f ++ ".url")) (some nineImages)
        ["f1", "f2", "f3"]).images.getD []).length = 10 ∧
    (uploadImages (fun f => some (f ++ ".url")) (some (nineImages ++ ["i10"]))
        ["f11"]).images = some (nineImages ++ ["i10"]) ∧
    (uploadImages (fun f => some (f ++ ".url")) (some (nineImages ++ ["i10"]))
        ["f11"]).attempted = [] := by
  have h1 := (claim_C3_image_cap (fun f => some (f ++ ".url")) (fun f => f ++ ".url")
    (some nineImages) ["f1", "f2", "f3"] (by decide)).2.2 (by decide)
  have h2 := (claim_C3_image_cap (fun f => some (f ++ ".url")) (fun f => f ++ ".url")
    (some (nineImages ++ ["i10"])) ["f11"] (by decide)).2.1 (by decide)
  refine ⟨h1.1.trans (by decide), ?_, h2.1, h2.2.1⟩
  rw [h1.1]
  decide

/-- Claim C5: when some file of the accepted batch fails to upload, the loop
aborts at that file — the files after it are never attempted — the draft's
`images` list is left exactly as before the batch, a user-visible alert is
raised, and the files stored before the failure stay in the bucket (no
rollback) without their URLs being appended to the draft. -/
theorem claim_C5_upload_failure_aborts (store : String → Option String) (url : String → String)
    (formImages : Option (List String)) (files good rest : List String) (bad : String)
    (hsplit : files.take (MAX_IMAGES - (formImages.getD []).length) = good ++ bad :: rest)
    (hgood : ∀ f ∈ good, store f = some (url f))
    (hbad : store bad = none) :
    (uploadImages store formImages files).images = formImages ∧
    (uploadImages store formImages files).alerted = true ∧
    (uploadImages store formImages files).stored = good ∧
    (uploadImages store formImages files).attempted = good ++ [bad] := by
  have hne : files ≠ [] := by
    intro h
    subst h
    simp at hsplit
  have hlt : (formImages.getD []).length < MAX_IMAGES := by
    by_contra h
    push_neg at h
    have h0 : MAX_IMAGES - (formImages.getD []).length = 0 := by omega
    rw [h0] at hsplit
    simp at hsplit
  rw [uploadImages_run store formImages files hne hlt, hsplit,
    runUploads_failure store url bad hbad good rest hgood]
  exact ⟨rfl, rfl, rfl, rfl⟩

/-- Witness for claim C5: a three-file batch whose second upload fails leaves
the draft unchanged, alerts, stores only the first file and never attempts
the third. -/
theorem claim_C5_upload_failure_aborts_witness :
    (uploadImages (fun f => if f = "f2" then none else some (f ++ ".url"))
        (some ["a"]) ["f1", "f2", "f3"]).images = some ["a"] ∧
    (uploadImages (fun f => if f = "f2" then none else some (f ++ ".url"))
        (some ["a"]) ["f1", "f2", "f3"]).alerted = true ∧
    (uploadImages (fun f => if f = "f2" then none else some (f ++ ".url"))
        (some ["a"]) ["f1", "f2", "f3"]).stored = ["f1"] ∧
    (uploadImages (fun f => if f = "f2" then none else some (f ++ ".url"))
        (some ["a"]) ["f1", "f2", "f3"]).attempted = ["f1", "f2"] := by
  have h := claim_C5_upload_failure_aborts
    (fun f => if f = "f2" then none else some (f ++ ".url")) (fun f => f ++ ".url")
    (some ["a"]) ["f1", "f2", "f3"] ["f1"] ["f3"] "f2" (by decide) (by decide) (by decide)
  exact ⟨h.1, h.2.1, h.2.2.1, h.2.2.2⟩

theorem handleSubmit_directionsCalls (formData : VenueRow) (initialData : Option VenueRow)
    (driveApi : Option Int) :
    (handleSubmit formData initialData driveApi).directionsCalls
      = if strTruthy formData.location
            && ((match initialData with
                 | none => true
                 | some init => formData.location ≠ init.location)
                || formData.id.isNone) then 1 else 0 := rfl

theorem handleSubmit_invoke_iff (formData : VenueRow) (initialData : Option VenueRow) :
    (strTruthy formData.location
        && ((match initialData with
             | none => true
             | some init => formData.location ≠ init.location)
            || formData.id.isNone)) = true
      ↔ strTruthy formData.location = true ∧
          (initialData.map VenueRow.location ≠ some formData.location ∨ formData.id = none) := by
  cases initialData with
  | none => simp [Option.isNone_iff_eq_none]
  | some init =>
    simp only [Bool.and_eq_true, Bool.or_eq_true, decide_eq_true_eq,
      Option.isNone_iff_eq_none, Option.map_some', ne_eq, Option.some.injEq]
    constructor
    · rintro ⟨h1, h2 | h2⟩
      · exact ⟨h1, Or.inl (fun e => h2 e.symm)⟩
      · exact ⟨h1, Or.inr h2⟩
    · rintro ⟨h1, h2 | h2⟩
      · exact ⟨h1, Or.inl (fun e => h2 e.symm)⟩
      · exact ⟨h1, Or.inr h2⟩

/-- Claim C4: the directions API is invoked exactly once if and only if the
draft's location is truthy (non-empty, non-null) and either differs from the
pre-edit snapshot's location or the draft has no identifier; editing a
persisted record without changing the location never invokes it; and when it
is not invoked, or resolves to null, every row written to the store carries
the draft's previous `drive_time_minutes` — which is null for a freshly
initialized create draft. -/
theorem claim_C4_drive_time_recompute (formData : VenueRow) (initialData : Option VenueRow)
    (driveApi : Option Int) :
    ((handleSubmit formData initialData driveApi).directionsCalls = 1 ↔
      strTruthy formData.location = true ∧
        (initialData.map VenueRow.location ≠ some formData.location ∨ formData.id = none)) ∧
    ((handleSubmit formData initialData driveApi).directionsCalls = 1 ∨
      (handleSubmit formData initialData driveApi).directionsCalls = 0) ∧
    (∀ init i, initialData = some init → formData.id = some i →
      formData.location = init.location →
      (handleSubmit formData initialData driveApi).directionsCalls = 0) ∧
    (((handleSubmit formData initialData driveApi).directionsCalls = 0 ∨ driveApi = none) →
      ∀ w ∈ (handleSubmit formData initialData driveApi).writes,
        (writtenRow w).drive_time_minutes = formData.drive_time_minutes) ∧
    (initFormData none).drive_time_minutes = none := by
  refine ⟨?_, ?_, ?_, ?_, rfl⟩
  · rw [handleSubmit_directionsCalls]
    by_cases hb : (strTruthy formData.location
        && ((match initialData with
             | none => true
             | some init => formData.location ≠ init.location)
            || formData.id.isNone)) = true
    · rw [if_pos hb]
      exact ⟨fun _ => (handleSubmit_invoke_iff formData initialData).mp hb, fun _ => rfl⟩
    · rw [if_neg hb]
      constructor
      · intro h
        exact absurd h (by decide)
      · intro h
        exact absurd ((handleSubmit_invoke_iff formData initialData).mpr h) hb
  · rw [handleSubmit_directionsCalls]
    by_cases hb : (strTruthy formData.location
        && ((match initialData with
             | none => true
             | some init => formData.location ≠ init.location)
            || formData.id.isNone)) = true
    · rw [if_pos hb]
      exact Or.inl rfl
    · rw [if_neg hb]
      exact Or.inr rfl
  · intro init i h1 h2 h3
    subst h1
    rw [handleSubmit_directionsCalls]
    simp [h2, h3]
  · intro hor w hw
    rcases hor with h0 | hnull
    · rw [handleSubmit_directionsCalls] at h0
      split at h0
      · exact absurd h0 (by decide)
      · next hb =>
        cases hid : formData.id with
        | none =>
          rw [hid] at hb
          simp only [handleSubmit, hid, List.mem_singleton] at hw
          subst hw
          simp only [writtenRow]
          rw [if_neg hb]
        | some i =>
          rw [hid] at hb
          simp only [handleSubmit, hid, List.mem_singleton] at hw
          subst hw
          simp only [writtenRow]
          rw [if_neg hb]
    · subst hnull
      cases hid : formData.id with
      | none =>
        simp only [handleSubmit, hid, List.mem_singleton] at hw
        subst hw
        simp only [writtenRow]
        split <;> rfl
      | some i =>
        simp only [handleSubmit, hid, List.mem_singleton] at hw
        subst hw
        simp only [writtenRow]
        split <;> rfl

/-- Persisted row used as the pre-edit snapshot in the C4 witness. -/
def exampleEditRow : VenueRow :=
  { id := some 6, name := some "E", location := some "Old Town", price_saturday := none,
    drive_time_minutes := some 25, images := some [], active := some true }

/-- Witness for claim C4: editing without changing the location issues no
directions call and keeps the stored drive time, while changing the location
issues exactly one call. -/
theorem claim_C4_drive_time_recompute_witness :
    (handleSubmit (initFormData (some exampleEditRow)) (some exampleEditRow)
        (some 99)).directionsCalls = 0 ∧
    (handleSubmit { initFormData (some exampleEditRow) with location := some "New Town" }
        (some exampleEditRow) (some 99)).directionsCalls = 1 := by
  have h1 := (claim_C4_drive_time_recompute (initFormData (some exampleEditRow))
    (some exampleEditRow) (some 99)).2.2.1 exampleEditRow 6 rfl rfl rfl
  have h2 := (claim_C4_drive_time_recompute
    { initFormData (some exampleEditRow) with location := some "New Town" }
    (some exampleEditRow) (some 99)).1.mpr ⟨by decide, Or.inl (by decide)⟩
  exact ⟨h1, h2⟩

theorem removeFirstS_append_s (ds : List Char) (h : ∀ c ∈ ds, c.isDigit) :
    removeFirstS (ds ++ ['s']) = ds := by
  induction ds with
  | nil => rfl
  | cons c cs ih =>
    have hc : ¬ c = 's' := by
      intro e
      subst e
      exact absurd (h 's' (List.mem_cons_self _ _)) (by decide)
    have ih' := ih (fun x hx => h x (List.mem_cons_of_mem c hx))
    simp [removeFirstS, hc, ih']

theorem takeWhile_isDigit_eq_self (ds : List Char) (h : ∀ c ∈ ds, c.isDigit) :
    ds.takeWhile Char.isDigit = ds := by
  induction ds with
  | nil => rfl
  | cons c cs ih =>
    rw [List.takeWhile_cons, if_pos (h c (List.mem_cons_self _ _))]
    rw [ih (fun x hx => h x (List.mem_cons_of_mem c hx))]

theorem jsParseIntLeading_digits (ds : List Char) (hne : ds ≠ []) (h : ∀ c ∈ ds, c.isDigit) :
    jsParseIntLeading ds = some (digitsToNat ds) := by
  unfold jsParseIntLeading
  rw [takeWhile_isDigit_eq_self ds h]
  cases ds with
  | nil => exact absurd rfl hne
  | cons c cs => rfl

/-- Claim C9: when the directions reply carries a duration that is a digit
run followed by the literal suffix `"s"`, `calculateDriveTime` returns the
digit run parsed as a decimal number of seconds, divided by 60 and rounded
to the nearest whole minute (half up, within 30 seconds of the exact
quotient); and each non-conforming case — missing or empty API key, a thrown
fetch, a non-2xx status, missing or empty `routes`, or a missing `duration`
— yields null rather than throwing. -/
theorem claim_C9_calculateDriveTime :
    (∀ (key : String) (ds : List Char) (d : String) (tail : List RouteData),
      key ≠ "" → ds ≠ [] → (∀ c ∈ ds, c.isDigit) → d.data = ds ++ ['s'] →
      calculateDriveTime
          { apiKey := some key,
            reply := some { ok := true, routes := some ({ duration := some d } :: tail) } }
        = DriveTimeResult.minutes ((digitsToNat ds + 30) / 60)) ∧
    (∀ secs : Nat,
      60 * ((secs + 30) / 60) ≤ secs + 30 ∧ secs ≤ 60 * ((secs + 30) / 60) + 30) ∧
    (∀ reply, calculateDriveTime { apiKey := none, reply := reply }
      = DriveTimeResult.nullResult) ∧
    (∀ reply, calculateDriveTime { apiKey := some "", reply := reply }
      = DriveTimeResult.nullResult) ∧
    (∀ key : String, key ≠ "" →
      calculateDriveTime { apiKey := some key, reply := none }
        = DriveTimeResult.nullResult) ∧
    (∀ (key : String) routes, key ≠ "" →
      calculateDriveTime { apiKey := some key, reply := some { ok := false, routes := routes } }
        = DriveTimeResult.nullResult) ∧
    (∀ key : String, key ≠ "" →
      calculateDriveTime { apiKey := some key, reply := some { ok := true, routes := none } }
        = DriveTimeResult.nullResult) ∧
    (∀ key : String, key ≠ "" →
      calculateDriveTime { apiKey := some key, reply := some { ok := true, routes := some [] } }
        = DriveTimeResult.nullResult) ∧
    (∀ (key : String) (tail : List RouteData), key ≠ "" →
      calculateDriveTime
          { apiKey := some key,
            reply := some { ok := true, routes := some ({ duration := none } :: tail) } }
        = DriveTimeResult.nullResult) := by
  refine ⟨?_, ?_, ?_, ?_, ?_, ?_, ?_, ?_, ?_⟩
  · intro key ds d tail hk hne hdig hd
    have hd0 : ¬ d = "" := by
      intro e
      subst e
      simp at hd
    simp [calculateDriveTime, hk, hd0, hd, removeFirstS_append_s ds hdig,
      jsParseIntLeading_digits ds hne hdig]
  · intro secs
    have h1 := Nat.div_add_mod (secs + 30) 60
    have h2 : (secs + 30) % 60 < 60 := Nat.mod_lt _ (by decide)
    omega
  · intro reply
    rfl
  · intro reply
    rfl
  · intro key hk
    simp only [calculateDriveTime]
    rw [if_neg hk]
  · intro key routes hk
    simp only [calculateDriveTime]
    rw [if_neg hk]
    simp
  · intro key hk
    simp only [calculateDriveTime]
    rw [if_neg hk]
    simp
  · intro key hk
    simp only [calculateDriveTime]
    rw [if_neg hk]
    simp
  · intro key tail hk
    simp only [calculateDriveTime]
    rw [if_neg hk]
    simp

/-- Witness for claim C9: the conforming duration `"630s"` yields 11 minutes
(630 seconds rounds to 11), and a thrown fetch yields null. -/
theorem claim_C9_calculateDriveTime_witness :
    calculateDriveTime
        { apiKey := some "k",
          reply := some { ok := true, routes := some [{ duration := some "630s" }] } }
      = DriveTimeResult.minutes 11 ∧
    calculateDriveTime { apiKey := some "k", reply := none } = DriveTimeResult.nullResult := by
  have h1 := claim_C9_calculateDriveTime.1 "k" ['6', '3', '0'] "630s" [] (by decide)
    (by decide) (by decide) (by decide)
  have h2 := claim_C9_calculateDriveTime.2.2.2.2.1 "k" (by decide)
  exact ⟨h1.trans (by decide), h2⟩
